import Mathlib

/-!
# Verification of the yournote synchronization and reconciliation engine

Shallow embedding of `backend/app/services/collector.py`,
`backend/app/services/http_client.py` and `backend/app/services/publisher.py`.

Modelling conventions:
* JSON payload values are the inductive `JsonVal`; a raw upstream diary record
  is an association list `RawRecord` mirroring a Python dict.
* Python `str.strip()` is `pyStrip` (exactly Python's whitespace set, which
  does NOT include U+FEFF); `str.strip` of U+FEFF is `stripBom`.
* Database rows are records; tables are lists of rows.  The raw conditional
  `UPDATE` of the message-count CAS operates on the table list, the in-memory
  ORM attribute view is threaded explicitly.
* `datetime` values produced by `_to_utc_datetime` are abstracted as the
  integer epoch second that produced them (the conversion is injective on the
  inputs the upstream sends); float backoff arithmetic is modelled over `ℚ`.
* Fallible code (`strptime`, `scalar_one_or_none` with several rows) returns
  `Except String`.
-/

namespace Yournote

/-- A JSON value as it appears in the upstream sync payload. -/
inductive JsonVal where
  | jnull
  | jbool (b : Bool)
  | jint (n : Int)
  | jstr (s : String)
  deriving DecidableEq, Repr

/-- A raw diary record from the upstream payload: a Python dict. -/
abbrev RawRecord := List (String × JsonVal)

/-- Raw key lookup: distinguishes a missing key from an explicit JSON null. -/
def lookupKey (r : RawRecord) (k : String) : Option JsonVal :=
  (r.find? (fun p => p.1 == k)).map (fun p => p.2)

/-- Python `d.get(k)`: a missing key and an explicit null both come back as
`None`, modelled as `none`. -/
def pyGet (r : RawRecord) (k : String) : Option JsonVal :=
  match lookupKey r k with
  | some JsonVal.jnull => none
  | some v => some v
  | none => none

/-- Python `d.get(k, dflt)`: missing key yields the default, an explicit null
still yields `None`. -/
def pyGetD (r : RawRecord) (k : String) (dflt : JsonVal) : Option JsonVal :=
  match lookupKey r k with
  | some JsonVal.jnull => none
  | some v => some v
  | none => some dflt

/-- Python `isinstance(x, int)` view of a value (`bool` is an `int` subclass
in Python, so `True`/`False` pass the check as `1`/`0`). -/
def pyAsInt : Option JsonVal → Option Int
  | some (JsonVal.jint n) => some n
  | some (JsonVal.jbool b) => some (if b then 1 else 0)
  | _ => none

/-- Python truthiness of a JSON value. -/
def pyTruthy : JsonVal → Bool
  | JsonVal.jnull => false
  | JsonVal.jbool b => b
  | JsonVal.jint n => n != 0
  | JsonVal.jstr s => s != ""

/-- Python truthiness of `d.get(k)`-style optional values. -/
def pyTruthyOpt : Option JsonVal → Bool
  | some v => pyTruthy v
  | none => false

/-- Python `==` on JSON values (`1 == True` holds in Python). -/
def pyEqVal : JsonVal → JsonVal → Bool
  | JsonVal.jnull, JsonVal.jnull => true
  | JsonVal.jbool a, JsonVal.jbool b => a == b
  | JsonVal.jint a, JsonVal.jint b => a == b
  | JsonVal.jbool a, JsonVal.jint b => (if a then (1 : Int) else 0) == b
  | JsonVal.jint a, JsonVal.jbool b => a == (if b then (1 : Int) else 0)
  | JsonVal.jstr a, JsonVal.jstr b => a == b
  | _, _ => false

/-- Python `==` lifted to optional values (`None == None` holds, `None`
never equals a non-`None` value). -/
def pyEqOpt : Option JsonVal → Option JsonVal → Bool
  | none, none => true
  | some a, some b => pyEqVal a b
  | _, _ => false

/-- The exact character set `str.strip()` removes (Python's `str.isspace()`
characters).  Note U+FEFF (the BOM) is a `Cf` character and is NOT in this
set, so a bare `.strip()` does not remove a BOM. -/
def pyIsSpace (c : Char) : Bool :=
  c == ' ' || c == '\t' || c == '\n' || c == '\r' || c == '\x0b' || c == '\x0c' ||
  c == '\x1c' || c == '\x1d' || c == '\x1e' || c == '\x1f' || c == '\u0085' ||
  c == '\u00a0' || c == '\u1680' ||
  ('\u2000' ≤ c && c ≤ '\u200a') ||
  c == '\u2028' || c == '\u2029' || c == '\u202f' || c == '\u205f' || c == '\u3000'

/-- Remove leading and trailing characters satisfying `p`. -/
def stripEnds (p : Char → Bool) (l : List Char) : List Char :=
  ((l.dropWhile p).reverse.dropWhile p).reverse

/-- Python `s.strip()`. -/
def pyStrip (s : String) : String :=
  String.mk (stripEnds pyIsSpace s.toList)

/-- Python `s.strip(chr 0xFEFF)`: removes leading and trailing BOM characters
(used by `refresh_diary`, collector.py line 591). -/
def stripBom (s : String) : String :=
  String.mk (stripEnds (fun c => c == '\ufeff') s.toList)

/-- `CollectorService._DETAIL_CONTENT_MIN_LEN`. -/
def DETAIL_CONTENT_MIN_LEN : Nat := 100

/-- `CollectorService._content_len`: `len((content or "").strip())`. -/
def content_len (content : Option String) : Nat :=
  (pyStrip (content.getD "")).length

/-- View a fetched JSON field as the `str | None` the collector expects;
non-string JSON values never occur for content fields upstream. -/
def asStrOpt : Option JsonVal → Option String
  | some (JsonVal.jstr s) => some s
  | _ => none

/-- `CollectorService._needs_detail_fetch` (collector.py lines 154-157). -/
def needs_detail_fetch (content : Option JsonVal) (isSimple : Option JsonVal) : Bool :=
  if pyEqOpt isSimple (some (JsonVal.jint 1)) then true
  else content_len (asStrOpt content) < DETAIL_CONTENT_MIN_LEN

/-- `diary_data.get("content", "") or ""` (collector.py lines 591, 1056). -/
def getContentText (r : RawRecord) : String :=
  match lookupKey r "content" with
  | some (JsonVal.jstr s) => s
  | _ => ""

/-- `diary_data.get(k, "")` for string-typed fields, keeping Python's
`None`-on-explicit-null behaviour. -/
def getStrFieldD (r : RawRecord) (k : String) : Option String :=
  match lookupKey r k with
  | none => some ""
  | some (JsonVal.jstr s) => some s
  | some _ => none

/-- Python `a != b` where `a : str` and `b : str | None` (a string never
equals `None`). -/
def pyStrNeq (a : String) (b : Option String) : Bool :=
  match b with
  | some t => a != t
  | none => true

/-- Python `isinstance(x, str) and x.strip()` credential test used by the
token-lifecycle re-login guards. -/
def strTruthyOpt : Option String → Bool
  | some s => pyStrip s != ""
  | none => false

/-- Python `int(s)` on a string, as used by `_normalize_msg_count`. -/
def pyParseIntStr (s : String) : Option Int := (pyStrip s).toInt?

/-- `CollectorService._normalize_msg_count` on a raw JSON value
(collector.py lines 159-168). -/
def normalize_msg_count : Option JsonVal → Int
  | none => 0
  | some JsonVal.jnull => 0
  | some (JsonVal.jbool b) => if b then 1 else 0
  | some (JsonVal.jint n) => if 0 ≤ n then n else 0
  | some (JsonVal.jstr s) =>
    match pyParseIntStr s with
    | some n => if 0 ≤ n then n else 0
    | none => 0

/-- `_normalize_msg_count` on an already-integer value (the CAS entry point
receives `new_msg_count: int`). -/
def normalize_msg_count_int (n : Int) : Int := if 0 ≤ n then n else 0

/-- `_normalize_msg_count(getattr(diary, "msg_count", None))`: the stored
ORM attribute is `int | None`. -/
def normalize_msg_count_mem : Option Int → Int
  | none => 0
  | some n => if 0 ≤ n then n else 0

/-- `CollectorService._to_utc_datetime` with datetimes abstracted as the UTC
epoch seconds that produced them (collector.py lines 143-152); a value
`float()` rejects yields `None`. -/
def to_utc_datetime : JsonVal → Option Int
  | JsonVal.jint n => some n
  | JsonVal.jbool b => some (if b then 1 else 0)
  | JsonVal.jstr s => s.toInt?
  | JsonVal.jnull => none

/-! ## Strict `%Y-%m-%d` date parsing (`datetime.strptime`, collector.py line 1036) -/

def isLeapYear (y : Nat) : Bool := (y % 4 == 0 && y % 100 != 0) || y % 400 == 0

def daysInMonth (y m : Nat) : Nat :=
  if m == 2 then (if isLeapYear y then 29 else 28)
  else if m == 4 || m == 6 || m == 9 || m == 11 then 30
  else 31

def digitVal (c : Char) : Option Nat :=
  if '0' ≤ c && c ≤ '9' then some (c.toNat - '0'.toNat) else none

/-- `%Y`: exactly four digits. -/
def parseFourDigits : List Char → Option (Nat × List Char)
  | a :: b :: c :: d :: rest => do
    let x ← digitVal a
    let y ← digitVal b
    let z ← digitVal c
    let w ← digitVal d
    pure (x * 1000 + y * 100 + z * 10 + w, rest)
  | _ => none

/-- `%m`: CPython regex alternation `1[0-2]|0[1-9]|[1-9]`. -/
def parseMonthChars : List Char → Option (Nat × List Char)
  | '1' :: c :: rest =>
    if c == '0' || c == '1' || c == '2' then some (10 + (c.toNat - '0'.toNat), rest)
    else some (1, c :: rest)
  | '0' :: c :: rest =>
    if '1' ≤ c && c ≤ '9' then some (c.toNat - '0'.toNat, rest) else none
  | c :: rest =>
    if '1' ≤ c && c ≤ '9' then some (c.toNat - '0'.toNat, rest) else none
  | [] => none

/-- `%d`: CPython regex alternation `3[01]|[12][0-9]|0[1-9]|[1-9]`. -/
def parseDayChars : List Char → Option (Nat × List Char)
  | '3' :: c :: rest =>
    if c == '0' || c == '1' then some (30 + (c.toNat - '0'.toNat), rest)
    else some (3, c :: rest)
  | c1 :: c2 :: rest =>
    if c1 == '1' || c1 == '2' then
      match digitVal c2 with
      | some d2 => some ((c1.toNat - '0'.toNat) * 10 + d2, rest)
      | none => some (c1.toNat - '0'.toNat, c2 :: rest)
    else if c1 == '0' then
      (if '1' ≤ c2 && c2 ≤ '9' then some (c2.toNat - '0'.toNat, rest) else none)
    else if '1' ≤ c1 && c1 ≤ '9' then some (c1.toNat - '0'.toNat, c2 :: rest)
    else none
  | [c] => if '1' ≤ c && c ≤ '9' then some (c.toNat - '0'.toNat, []) else none
  | [] => none

/-- A `datetime.date` value. -/
structure PyDate where
  year : Nat
  month : Nat
  day : Nat
  deriving DecidableEq, Repr

/-- `datetime.strptime(s, "%Y-%m-%d").date()`: full-string match plus calendar
validity (`datetime` rejects year 0 and out-of-range days). -/
def strptime_ymd (s : String) : Option PyDate :=
  match parseFourDigits s.toList with
  | none => none
  | some (y, r1) =>
    match r1 with
    | '-' :: r2 =>
      match parseMonthChars r2 with
      | none => none
      | some (m, r3) =>
        match r3 with
        | '-' :: r4 =>
          match parseDayChars r4 with
          | none => none
          | some (d, r5) =>
            if r5 = [] ∧ 1 ≤ y ∧ 1 ≤ d ∧ d ≤ daysInMonth y m then some ⟨y, m, d⟩
            else none
        | _ => none
    | _ => none

/-! ## Image placeholder extraction (`ImageCacheService.extract_image_ids`) -/

def isDigitChar (c : Char) : Bool := '0' ≤ c && c ≤ '9'

def digitsToNat (l : List Char) : Nat :=
  l.foldl (fun acc c => acc * 10 + (c.toNat - '0'.toNat)) 0

/-- All matches of the placeholder pattern (an opening bracket, the CJK
character for picture, one or more digits, a closing bracket) in order.
Scanning one character at a time is equivalent to `re.finditer`'s
non-overlapping scan because no match can start inside another match. -/
def scanImageIds : List Char → List Nat
  | '[' :: '图' :: rest =>
    (match rest.dropWhile isDigitChar with
     | ']' :: _ =>
       if (rest.takeWhile isDigitChar).isEmpty then []
       else [digitsToNat (rest.takeWhile isDigitChar)]
     | _ => []) ++ scanImageIds ('图' :: rest)
  | _ :: rest => scanImageIds rest
  | [] => []

/-- `ImageCacheService.extract_image_ids` (image_cache.py lines 36-53):
positive ids, de-duplicated keeping first-occurrence order. -/
def extract_image_ids (content : Option String) : List Nat :=
  (scanImageIds (content.getD "").toList).foldl
    (fun (acc : List Nat) x => if x = 0 ∨ acc.contains x then acc else acc ++ [x]) []

/-! ## Data model rows -/

/-- A `Diary` row (the fields the sync engine reads and writes). `id` is
`none` for a row not yet flushed (no generated primary key yet). -/
structure DiaryState where
  id : Option Int
  nideriji_diary_id : Int
  user_id : Int
  account_id : Int
  title : Option String
  content : Option String
  created_date : Option PyDate
  created_time : Option Int
  weather : Option String
  mood : Option String
  mood_id : Option JsonVal
  mood_color : Option JsonVal
  space : Option String
  is_simple : Option JsonVal
  msg_count : Option Int
  ts : Option JsonVal
  deriving DecidableEq, Repr

/-- A `DiaryMsgCountEvent` ledger row. -/
structure DiaryMsgCountEvent where
  account_id : Int
  diary_id : Int
  sync_log_id : Option Int
  old_msg_count : Int
  new_msg_count : Int
  delta : Int
  source : String
  deriving DecidableEq, Repr

/-- A `DiaryHistory` snapshot row. -/
structure DiaryHistory where
  diary_id : Int
  nideriji_diary_id : Int
  title : Option String
  content : Option String
  weather : Option String
  mood : Option String
  ts : Option JsonVal
  deriving DecidableEq, Repr

/-- A `DiaryDetailFetch` state row. -/
structure DiaryDetailFetch where
  diary_id : Option Int
  nideriji_diary_id : Int
  attempts : Int
  last_detail_success : Bool
  last_detail_is_short : Bool
  last_detail_content_len : Option Nat
  last_detail_error : Option String
  deriving DecidableEq, Repr

/-- A `PairedRelationship` row. -/
structure PairedRelationship where
  account_id : Int
  user_id : Int
  paired_user_id : Int
  paired_time : Option Int
  is_active : Bool
  deriving DecidableEq, Repr

/-! ## Association-list dictionaries (Python `dict[int, ...]`) -/

def lookupAssoc {α : Type} : List (Int × α) → Int → Option α
  | [], _ => none
  | (k', v) :: rest, k => if k' = k then some v else lookupAssoc rest k

/-- Python dict assignment `m[k] = v`: replace in place, or append a new key
in insertion order. -/
def insertAssoc {α : Type} : List (Int × α) → Int → α → List (Int × α)
  | [], k, v => [(k, v)]
  | (k', v') :: rest, k, v =>
    if k' = k then (k, v) :: rest else (k', v') :: insertAssoc rest k v

/-- Replace the first list element satisfying `p` (the single ORM object
returned by `scalar_one_or_none` is mutated in place). -/
def replaceFirst {α : Type} (p : α → Bool) (f : α → α) : List α → List α
  | [] => []
  | x :: xs => if p x then f x :: xs else x :: replaceFirst p f xs

/-! ## Message-count CAS (`_cas_update_diary_msg_count`, collector.py 170-223) -/

/-- The `WHERE` clause of the conditional update: diary id, account id and
old message count, a stored `NULL` or `0` both matching an expected `0`. -/
def cas_where_match (diaryId accountId : Int) (oldMsgCount : Int) (r : DiaryState) : Bool :=
  r.id = some diaryId ∧ r.account_id = accountId ∧
    (if oldMsgCount = 0 then r.msg_count = some 0 ∨ r.msg_count = none
     else r.msg_count = some oldMsgCount)

/-- Result of one CAS call: the diary table after the raw `UPDATE`, the
ORM attribute view of `diary.msg_count` after `synchronize_session="fetch"`,
the ledger rows added, and the returned flag. -/
structure CasOutcome where
  db : List DiaryState
  mem_msg_count : Option Int
  events : List DiaryMsgCountEvent
  updated : Bool
  deriving Repr

/-- `CollectorService._cas_update_diary_msg_count`.  `diaryIdAttr` is
`getattr(diary, "id", None)` and `memMsgCount` is
`getattr(diary, "msg_count", None)` of the in-memory ORM object. -/
def cas_update_diary_msg_count (db : List DiaryState)
    (diaryIdAttr : Option Int) (memMsgCount : Option Int)
    (accountId : Int) (newMsgCount : Int) (source : String)
    (syncLogId : Option Int) : CasOutcome :=
  match diaryIdAttr with
  | none => ⟨db, memMsgCount, [], false⟩
  | some diaryId =>
    if diaryId ≤ 0 then ⟨db, memMsgCount, [], false⟩
    else
      let old_is_null := memMsgCount.isNone
      let old_msg_count := normalize_msg_count_mem memMsgCount
      let new_msg_count_norm := normalize_msg_count_int newMsgCount
      if ¬old_is_null ∧ new_msg_count_norm = old_msg_count then ⟨db, memMsgCount, [], false⟩
      else
        let db' := db.map (fun r =>
          if cas_where_match diaryId accountId old_msg_count r
          then { r with msg_count := some new_msg_count_norm } else r)
        let rowcount := (db.filter (cas_where_match diaryId accountId old_msg_count)).length
        if rowcount ≠ 1 then ⟨db', memMsgCount, [], false⟩
        else
          let delta := new_msg_count_norm - old_msg_count
          let events :=
            if 0 < delta then
              [⟨accountId, diaryId, syncLogId, old_msg_count, new_msg_count_norm, delta, source⟩]
            else []
          ⟨db', some new_msg_count_norm, events, true⟩

/-! ## Merging detail data (`_merge_diary_data`, collector.py 442-463) -/

/-- Python dict assignment `merged[key] = value` on a raw record. -/
def setKey (r : RawRecord) (k : String) (v : JsonVal) : RawRecord :=
  if (r.find? (fun p => p.1 == k)).isSome
  then r.map (fun p => if p.1 == k then (k, v) else p)
  else r ++ [(k, v)]

def mergeFieldKeys : List String :=
  ["title", "content", "weather", "mood", "mood_id", "mood_color", "space",
   "is_simple", "msg_count", "createddate", "createdtime", "ts"]

/-- `CollectorService._merge_diary_data`: overlay the detail record's
present-and-non-null fields onto the preview record. -/
def merge_diary_data (base detail : RawRecord) : RawRecord :=
  mergeFieldKeys.foldl (fun m k =>
    match lookupKey detail k with
    | some v => if v = JsonVal.jnull then m else setKey m k v
    | none => m) base

/-! ## Detail-fetch decision during batch sync (collector.py 964-1001) -/

/-- Lines 983-992: the pre-loaded `DiaryDetailFetch` row for an existing
diary, looked up by its database id when that id is a positive integer. -/
def detail_state_for (state_by_db_id : List (Int × DiaryDetailFetch))
    (existingId : Option Int) : Option DiaryDetailFetch :=
  match existingId with
  | some dbId => if 0 < dbId then lookupAssoc state_by_db_id dbId else none
  | none => none

/-- One iteration of the `need_detail_ids` selection loop: returns the id to
request, or `none` when the record is skipped. -/
def need_detail_for_record (existing_by_id : List (Int × DiaryState))
    (state_by_db_id : List (Int × DiaryDetailFetch)) (d : RawRecord) : Option Int :=
  match pyAsInt (pyGet d "id") with
  | none => none
  | some diary_id =>
    if ¬needs_detail_fetch (pyGet d "content") (pyGet d "is_simple") then none
    else
      match lookupAssoc existing_by_id diary_id with
      | none => some diary_id
      | some existing =>
        if DETAIL_CONTENT_MIN_LEN ≤ content_len existing.content then none
        else
          match detail_state_for state_by_db_id existing.id with
          | some st =>
            if st.last_detail_success ∧ st.last_detail_is_short then none
            else some diary_id
          | none => some diary_id

/-- The full list of diary ids passed to `fetch_nideriji_diaries_by_ids`
during one `_save_diaries` call. -/
def compute_need_detail_ids (diaries : List RawRecord)
    (existing_by_id : List (Int × DiaryState))
    (state_by_db_id : List (Int × DiaryDetailFetch)) : List Int :=
  diaries.filterMap (need_detail_for_record existing_by_id state_by_db_id)

/-! ## Detail-fetch state tracking (`_upsert_detail_fetch_state`, 265-296) -/

/-- `CollectorService._upsert_detail_fetch_state`: upsert keyed by the
diary's database id; `last_detail_is_short` is forced to `false` on
failure; `attempts` increments on every call. -/
def upsert_detail_fetch_state (states : List DiaryDetailFetch) (diary : DiaryState)
    (success is_short : Bool) (clen : Option Nat) (err : Option String) :
    List DiaryDetailFetch :=
  let apply := fun (st : DiaryDetailFetch) =>
    { st with
      nideriji_diary_id := diary.nideriji_diary_id
      last_detail_success := success
      last_detail_is_short := if success then is_short else false
      last_detail_content_len := clen
      last_detail_error := err
      attempts := st.attempts + 1 }
  if (states.find? (fun st => st.diary_id = diary.id)).isSome then
    replaceFirst (fun st => st.diary_id = diary.id) apply states
  else
    states ++ [apply ⟨diary.id, diary.nideriji_diary_id, 0, false, false, none, none⟩]

/-! ## The `_save_diaries` record loop (collector.py 1013-1126) -/

/-- Mutable state threaded through the `_save_diaries` record loop. -/
structure SaveLoopState where
  existing_by_id : List (Int × DiaryState)
  db : List DiaryState
  detail_states : List DiaryDetailFetch
  events : List DiaryMsgCountEvent
  histories : List DiaryHistory
  count : Nat
  touched_nideriji_ids : List Int
  deriving Repr

/-- Lines 1107-1125: record the outcome of a detail request made for this
record during this batch. -/
def record_detail_result (st : SaveLoopState) (diary : DiaryState) (diary_id : Int)
    (diary_data : RawRecord) (details_by_id : List (Int × RawRecord))
    (requested_detail_ids : List Int) : SaveLoopState :=
  if diary_id ∈ requested_detail_ids then
    if (lookupAssoc details_by_id diary_id).isSome then
      let detail_content_len := content_len (asStrOpt (pyGet diary_data "content"))
      let states' := upsert_detail_fetch_state st.detail_states diary true
        (detail_content_len < DETAIL_CONTENT_MIN_LEN) (some detail_content_len) none
      { st with detail_states := states' }
    else
      let states' := upsert_detail_fetch_state st.detail_states diary false false none
        (some "详情接口未返回该日记")
      { st with detail_states := states' }
  else st

/-- The existing-diary branch of the `_save_diaries` loop (collector.py
1054-1105 plus the detail-state recording 1107-1125): CAS of the message
count, the short-over-long non-regression guard (whose `continue` also skips
the detail-state recording), change detection with a history snapshot, and
the field overwrite. -/
def save_diary_update (accountId : Int) (syncLogId : Option Int)
    (details_by_id : List (Int × RawRecord)) (requested_detail_ids : List Int)
    (st : SaveLoopState) (diary_id : Int) (diary_data : RawRecord)
    (diary0 : DiaryState) : SaveLoopState :=
  let new_content := getContentText diary_data
  let new_title := getStrFieldD diary_data "title"
  let new_msg_count := normalize_msg_count (pyGetD diary_data "msg_count" (JsonVal.jint 0))
  let cas := cas_update_diary_msg_count st.db diary0.id diary0.msg_count accountId
    new_msg_count "sync" syncLogId
  let diary1 := { diary0 with msg_count := cas.mem_msg_count }
  let st1 := { st with
    db := cas.db
    events := st.events ++ cas.events
    existing_by_id := insertAssoc st.existing_by_id diary_id diary1 }
  let db_content_text := diary1.content.getD ""
  let db_title_text := diary1.title.getD ""
  if content_len (some new_content) < DETAIL_CONTENT_MIN_LEN ∧
     DETAIL_CONTENT_MIN_LEN ≤ content_len (some db_content_text) then
    st1
  else
    if (db_content_text != new_content) || pyStrNeq db_title_text new_title then
      let history : DiaryHistory :=
        { diary_id := diary1.id.getD 0
          nideriji_diary_id := diary1.nideriji_diary_id
          title := diary1.title
          content := diary1.content
          weather := diary1.weather
          mood := diary1.mood
          ts := diary1.ts }
      let diary2 := { diary1 with
        title := new_title
        content := some new_content
        weather := getStrFieldD diary_data "weather"
        mood := getStrFieldD diary_data "mood"
        ts := pyGet diary_data "ts" }
      let st2 := { st1 with
        histories := st1.histories ++ [history]
        existing_by_id := insertAssoc st1.existing_by_id diary_id diary2
        touched_nideriji_ids :=
          if extract_image_ids (some new_content) ≠ []
          then st1.touched_nideriji_ids ++ [diary_id] else st1.touched_nideriji_ids }
      record_detail_result st2 diary2 diary_id diary_data details_by_id
        requested_detail_ids
    else
      record_detail_result st1 diary1 diary_id diary_data details_by_id
        requested_detail_ids

/-- One iteration of the `for diary_data in diaries` loop of `_save_diaries`.
A record whose `id` is missing or not an integer is skipped silently; the
insert branch parses `createddate` strictly and any parse failure aborts the
whole sync with the exception text. -/
def save_diary_step (accountId : Int) (userDbId : Int) (syncLogId : Option Int)
    (details_by_id : List (Int × RawRecord)) (requested_detail_ids : List Int)
    (st : SaveLoopState) (d : RawRecord) : Except String SaveLoopState :=
  match pyAsInt (pyGet d "id") with
  | none => .ok st
  | some diary_id =>
    let diary_data :=
      match lookupAssoc details_by_id diary_id with
      | some det => merge_diary_data d det
      | none => d
    let created_time :=
      if pyTruthyOpt (pyGet diary_data "createdtime")
      then (pyGet diary_data "createdtime").bind to_utc_datetime else none
    match lookupAssoc st.existing_by_id diary_id with
    | none =>
      match lookupKey diary_data "createddate" with
      | some (JsonVal.jstr s) =>
        match strptime_ymd s with
        | none => .error "ValueError: time data does not match format %Y-%m-%d"
        | some cd =>
          let newDiary : DiaryState :=
            { id := none
              nideriji_diary_id := diary_id
              user_id := userDbId
              account_id := accountId
              title := getStrFieldD diary_data "title"
              content := getStrFieldD diary_data "content"
              created_date := some cd
              created_time := created_time
              weather := getStrFieldD diary_data "weather"
              mood := getStrFieldD diary_data "mood"
              mood_id := pyGet diary_data "mood_id"
              mood_color := pyGet diary_data "mood_color"
              space := getStrFieldD diary_data "space"
              is_simple := pyGetD diary_data "is_simple" (JsonVal.jint 0)
              msg_count := some (normalize_msg_count (pyGetD diary_data "msg_count" (JsonVal.jint 0)))
              ts := pyGet diary_data "ts" }
          let st1 := { st with
            existing_by_id := insertAssoc st.existing_by_id diary_id newDiary
            count := st.count + 1
            touched_nideriji_ids :=
              if extract_image_ids newDiary.content ≠ []
              then st.touched_nideriji_ids ++ [diary_id] else st.touched_nideriji_ids }
          .ok (record_detail_result st1 newDiary diary_id diary_data details_by_id
                requested_detail_ids)
      | some _ => .error "TypeError: strptime argument must be str"
      | none => .error "KeyError: createddate"
    | some diary0 =>
      .ok (save_diary_update accountId syncLogId details_by_id requested_detail_ids
            st diary_id diary_data diary0)

/-- The whole record loop of `_save_diaries`. -/
def save_diaries_loop (accountId userDbId : Int) (syncLogId : Option Int)
    (details_by_id : List (Int × RawRecord)) (requested_detail_ids : List Int) :
    SaveLoopState → List RawRecord → Except String SaveLoopState
  | st, [] => .ok st
  | st, d :: rest =>
    match save_diary_step accountId userDbId syncLogId details_by_id
        requested_detail_ids st d with
    | .error e => .error e
    | .ok st' =>
      save_diaries_loop accountId userDbId syncLogId details_by_id
        requested_detail_ids st' rest

/-- Lines 942-951: key the pre-loaded batch diaries by upstream id. -/
def build_existing_by_id (diaryTable : List DiaryState) (diary_ids : List Int) :
    List (Int × DiaryState) :=
  (diaryTable.filter (fun r => r.nideriji_diary_id ∈ diary_ids)).foldl
    (fun m r => if 0 < r.nideriji_diary_id then insertAssoc m r.nideriji_diary_id r else m) []

/-- `_get_detail_fetch_state_map` (collector.py 250-263). -/
def build_detail_state_map (stateTable : List DiaryDetailFetch) (db_ids : List Int) :
    List (Int × DiaryDetailFetch) :=
  (stateTable.filter (fun s => match s.diary_id with
    | some i => i ∈ db_ids
    | none => false)).foldl
    (fun m s => match s.diary_id with
      | some i => insertAssoc m i s
      | none => m) []

/-- Result of one `_save_diaries` call. -/
structure SaveDiariesOutcome where
  state : SaveLoopState
  new_count : Nat
  need_detail_ids : List Int
  deriving Repr

/-- `CollectorService._save_diaries` (collector.py 910-1138).  `userDbId` is
the local `User` row id found for `user_nideriji_id` (`none` when absent, in
which case nothing is saved); `fetched` is the oracle for the single
`fetch_nideriji_diaries_by_ids` network call, invoked on the ids the
completeness/suppression logic selected. -/
def save_diaries (diaries : List RawRecord) (accountId : Int) (userDbId : Option Int)
    (diaryTable : List DiaryState) (stateTable : List DiaryDetailFetch)
    (fetched : List Int → List (Int × RawRecord)) (syncLogId : Option Int) :
    Except String SaveDiariesOutcome :=
  let empty : SaveLoopState := ⟨[], diaryTable, stateTable, [], [], 0, []⟩
  if diaries = [] then .ok ⟨empty, 0, []⟩
  else
    match userDbId with
    | none => .ok ⟨empty, 0, []⟩
    | some uid =>
      let diary_ids := diaries.filterMap (fun d => pyAsInt (pyGet d "id"))
      let existing_by_id := build_existing_by_id diaryTable diary_ids
      let diary_db_ids := (existing_by_id.map (fun p => p.2)).filterMap (fun r =>
        match r.id with
        | some i => if 0 < i then some i else none
        | none => none)
      let state_map := build_detail_state_map stateTable diary_db_ids
      let need_ids := compute_need_detail_ids diaries existing_by_id state_map
      let details_by_id := if need_ids = [] then [] else fetched need_ids
      let st0 : SaveLoopState := ⟨existing_by_id, diaryTable, stateTable, [], [], 0, []⟩
      match save_diaries_loop accountId uid syncLogId details_by_id need_ids st0 diaries with
      | .error e => .error e
      | .ok stF => .ok ⟨stF, stF.count, need_ids⟩

/-! ## `refresh_diary`, apply stage (collector.py 585-708)

The network part of `refresh_diary` (lines 508-583) selects a merged
`diary_data` (or `none` when neither sync nor the detail endpoint returned
the entry) and sets the trace flags `used_all_by_ids`, `all_by_ids_returned`
and `sync_found`; the apply stage below consumes them. -/

/-- Outcome of the apply stage of `refresh_diary`: the final diary object,
the diary table after the CAS raw update, rows added, and the trace fields
`updated` / `update_source` / `skipped_reason`. -/
structure RefreshOutcome where
  diary : DiaryState
  db : List DiaryState
  events : List DiaryMsgCountEvent
  histories : List DiaryHistory
  updated : Bool
  update_source : Option String
  skipped_reason : Option String
  deriving Repr

def refresh_apply (diary0 : DiaryState) (db : List DiaryState)
    (diary_data? : Option RawRecord) (used_all_by_ids : Bool)
    (all_by_ids_returned : Bool) (sync_found : Bool) : RefreshOutcome :=
  match diary_data? with
  | none => ⟨diary0, db, [], [], false, none, some "sync 未找到且详情接口也未返回该日记"⟩
  | some dd =>
    let created_time :=
      if pyTruthyOpt (pyGet dd "createdtime")
      then (pyGet dd "createdtime").bind to_utc_datetime else none
    let new_title := getStrFieldD dd "title"
    let new_content := stripBom (getContentText dd)
    let new_weather := getStrFieldD dd "weather"
    let new_mood := getStrFieldD dd "mood"
    let new_mood_id := pyGet dd "mood_id"
    let new_mood_color := pyGet dd "mood_color"
    let new_space := getStrFieldD dd "space"
    let new_is_simple := pyGetD dd "is_simple" (JsonVal.jint 0)
    let new_msg_count := normalize_msg_count (pyGetD dd "msg_count" (JsonVal.jint 0))
    let new_ts := pyGet dd "ts"
    let cas := cas_update_diary_msg_count db diary0.id diary0.msg_count
      diary0.account_id new_msg_count "refresh" none
    let msg_updated := cas.updated
    let diary1 := { diary0 with msg_count := cas.mem_msg_count }
    let source_sel : Option String :=
      if used_all_by_ids ∧ all_by_ids_returned then some "all_by_ids"
      else if sync_found then some "sync" else none
    if content_len (some new_content) < DETAIL_CONTENT_MIN_LEN ∧
       DETAIL_CONTENT_MIN_LEN ≤ content_len diary1.content then
      if msg_updated then
        ⟨diary1, cas.db, cas.events, [], true, source_sel,
          some "短内容不会覆盖数据库中已存在的完整内容（已仅更新留言数）"⟩
      else
        ⟨diary1, cas.db, cas.events, [], false, none,
          some "短内容不会覆盖数据库中已存在的完整内容"⟩
    else
      let changed_non_msg :=
        decide (diary1.title ≠ new_title) ||
        ((diary1.content.getD "") != new_content) ||
        decide (diary1.created_time ≠ created_time) ||
        pyStrNeq (diary1.weather.getD "") new_weather ||
        pyStrNeq (diary1.mood.getD "") new_mood ||
        !(pyEqOpt diary1.mood_id new_mood_id) ||
        !(pyEqOpt diary1.mood_color new_mood_color) ||
        pyStrNeq (diary1.space.getD "") new_space ||
        !(pyEqOpt diary1.is_simple new_is_simple) ||
        !(pyEqOpt diary1.ts new_ts)
      if !changed_non_msg then
        if msg_updated then
          ⟨diary1, cas.db, cas.events, [], true, source_sel, some "仅留言数发生变化"⟩
        else
          ⟨diary1, cas.db, cas.events, [], false, none, some "内容未发生变化"⟩
      else
        let old_content_text := diary1.content.getD ""
        let old_title_text := diary1.title.getD ""
        let histories :=
          if (old_content_text != new_content) || pyStrNeq old_title_text new_title then
            [⟨diary1.id.getD 0, diary1.nideriji_diary_id, diary1.title, diary1.content,
              diary1.weather, diary1.mood, diary1.ts⟩]
          else []
        let diary2 := { diary1 with
          title := new_title
          content := some new_content
          created_time := created_time
          weather := new_weather
          mood := new_mood
          mood_id := new_mood_id
          mood_color := new_mood_color
          space := new_space
          is_simple := new_is_simple
          ts := new_ts }
        ⟨diary2, cas.db, cas.events, histories, true, source_sel, none⟩

/-! ## Paired-relationship resolver (`_save_paired_user_info`, 867-908) -/

/-- The lookup condition of the relationship query:
`account_id == accountId AND paired_user_id == pairedUserId`. -/
def pair_match (accountId pairedUserId : Int) (r : PairedRelationship) : Bool :=
  r.account_id = accountId ∧ r.paired_user_id = pairedUserId

/-- The relationship upsert at the heart of `_save_paired_user_info`: look up
a `PairedRelationship` row for (account, partner); a found row is left
entirely untouched; an absent row is inserted active, with the paired time
converted from upstream epoch seconds when the config carries a truthy one.
`scalar_one_or_none` raises when several rows match. -/
def save_paired_relationship (rels : List PairedRelationship)
    (accountId mainUserId pairedUserId : Int) (pairedConfig : RawRecord) :
    Except String (List PairedRelationship) :=
  let found := rels.filter (pair_match accountId pairedUserId)
  match found with
  | [] =>
    let paired_time :=
      match pyGet pairedConfig "paired_time" with
      | some v => if pyTruthy v then to_utc_datetime v else none
      | none => none
    .ok (rels ++ [⟨accountId, mainUserId, pairedUserId, paired_time, true⟩])
  | [_] => .ok rels
  | _ => .error "MultipleResultsFound"

/-! ## Token lifecycle (`fetch_nideriji_data_for_account`, collector.py
329-366, and `write_diary_for_account`, publisher.py 73-94) -/

/-- Failure of one wrapped upstream call, as the collector distinguishes
them: `httpx.HTTPStatusError` with its status code, a network-layer
`httpx.RequestError`, or any other exception (e.g. a login `ValueError`). -/
inductive CallError where
  | httpStatus (code : Int)
  | network
  | appError (msg : String)
  deriving DecidableEq, Repr

/-- Observable actions of the token-lifecycle wrapper, in order. -/
inductive AuthEvent where
  | opCall (token : String)
  | loginCall
  deriving DecidableEq, Repr

/-- What one wrapped call produced: its result, the account's
`auth_token` attribute afterwards, and the action trace. -/
structure ReloginOutcome (α : Type) where
  result : Except CallError α
  auth_token : String
  trace : List AuthEvent

/-- The shared auto-relogin wrapper implemented identically by
`fetch_nideriji_data_for_account` and `write_diary_for_account`:
try the operation with the stored token; only on an HTTP 401/403 with both
a non-empty email and a non-empty stored password, log in once, write the
new token onto the account, and retry the operation exactly once. -/
def with_auto_relogin {α : Type} (operation : String → Except CallError α)
    (login : Except CallError String)
    (email login_password : Option String) (auth_token : String) : ReloginOutcome α :=
  match operation auth_token with
  | .ok v => ⟨.ok v, auth_token, [.opCall auth_token]⟩
  | .error e =>
    let can_relogin :=
      match e with
      | .httpStatus code =>
        (code == 401 || code == 403) && strTruthyOpt email && strTruthyOpt login_password
      | _ => false
    if can_relogin then
      match login with
      | .error le => ⟨.error le, auth_token, [.opCall auth_token, .loginCall]⟩
      | .ok new_token =>
        ⟨operation new_token, new_token,
          [.opCall auth_token, .loginCall, .opCall new_token]⟩
    else ⟨.error e, auth_token, [.opCall auth_token]⟩

/-! ## Upstream retry with backoff (`http_client.py`) -/

/-- What one `client.request` call does: return a response (with any HTTP
status — status errors are raised only later by `raise_for_status`) or raise
a network-layer `httpx.RequestError`. -/
inductive AttemptOutcome where
  | response (status : Int)
  | requestError
  deriving DecidableEq, Repr

/-- `_compute_backoff_seconds` (http_client.py 36-55), float arithmetic over
`ℚ`; `rand_val` is the `random.random()` draw in `[0, 1)`. -/
def compute_backoff_seconds (attempt : Int) (base max_backoff jitter_rate rand_val : ℚ) : ℚ :=
  if base ≤ 0 then 0
  else
    let e := (max 0 (attempt - 1)).toNat
    let delay0 := base * 2 ^ e
    let delay1 := if 0 < max_backoff then min delay0 max_backoff else delay0
    let delay2 := if 0 < jitter_rate then delay1 + rand_val * (delay1 * jitter_rate) else delay1
    max 0 delay2

/-- Result of `request_with_retry`: the propagated outcome (`ok` carries the
response status; `error` is the final network error re-raised), the number
of `client.request` calls performed, and the computed backoff delay before
each retry (slept when positive). -/
structure RetryOutcome where
  result : Except Unit Int
  attempts_made : Nat
  backoffs : List ℚ
  deriving Repr

/-- The attempt loop of `request_with_retry` (http_client.py 78-102):
`attempt` is the 1-based attempt number, `remaining` the attempts still
allowed (loop invariant: `attempt + remaining = attempts + 1`). -/
def retry_go (outcomes : Nat → AttemptOutcome) (rand : Nat → ℚ)
    (base max_backoff jitter_rate : ℚ) : Nat → Nat → RetryOutcome
  | _, 0 => ⟨.error (), 0, []⟩
  | attempt, r + 1 =>
    match outcomes attempt with
    | .response s => ⟨.ok s, 1, []⟩
    | .requestError =>
      if r = 0 then ⟨.error (), 1, []⟩
      else
        let b := compute_backoff_seconds attempt base max_backoff jitter_rate (rand attempt)
        let rest := retry_go outcomes rand base max_backoff jitter_rate (attempt + 1) r
        ⟨rest.result, rest.attempts_made + 1, b :: rest.backoffs⟩

/-- `request_with_retry` (http_client.py 58-107): only network-layer
errors are retried; any returned response ends the loop at once. -/
def request_with_retry (outcomes : Nat → AttemptOutcome) (rand : Nat → ℚ)
    (max_attempts : Int) (backoff_seconds max_backoff_seconds jitter_rate : ℚ) :
    RetryOutcome :=
  let attempts := (max 1 max_attempts).toNat
  let base := max 0 backoff_seconds
  let maxb := max 0 max_backoff_seconds
  let jit := max 0 jitter_rate
  retry_go outcomes rand base maxb jit 1 attempts

/-! ## Helper lemmas -/

theorem lookupAssoc_insertAssoc_self {α : Type} (m : List (Int × α)) (k : Int) (v : α) :
    lookupAssoc (insertAssoc m k v) k = some v := by
  induction m with
  | nil => simp [insertAssoc, lookupAssoc]
  | cons p rest ih =>
    obtain ⟨k', v'⟩ := p
    by_cases h : k' = k
    · simp [insertAssoc, lookupAssoc, h]
    · simp [insertAssoc, lookupAssoc, h, ih]

theorem content_len_some_getD (o : Option String) :
    content_len (some (o.getD "")) = content_len o := by
  cases o <;> rfl

theorem record_detail_result_existing_by_id (st : SaveLoopState) (dy : DiaryState)
    (i : Int) (dd : RawRecord) (det : List (Int × RawRecord)) (req : List Int) :
    (record_detail_result st dy i dd det req).existing_by_id = st.existing_by_id := by
  unfold record_detail_result
  split_ifs <;> rfl

/-- Characterization of a successful CAS: past all guards with rowcount 1,
the call updates every matching table row, refreshes the in-memory count,
and emits the growth event exactly when the delta is positive. -/
theorem cas_success_shape (db : List DiaryState) (mem : Option Int) (accId newMsg : Int)
    (src : String) (slid : Option Int) (did : Int)
    (h1 : ¬did ≤ 0)
    (h2 : ¬(¬mem.isNone = true ∧ normalize_msg_count_int newMsg = normalize_msg_count_mem mem))
    (h3 : (db.filter (cas_where_match did accId (normalize_msg_count_mem mem))).length = 1) :
    cas_update_diary_msg_count db (some did) mem accId newMsg src slid =
      ⟨db.map (fun r =>
          if cas_where_match did accId (normalize_msg_count_mem mem) r
          then { r with msg_count := some (normalize_msg_count_int newMsg) } else r),
        some (normalize_msg_count_int newMsg),
        (if 0 < normalize_msg_count_int newMsg - normalize_msg_count_mem mem then
          [⟨accId, did, slid, normalize_msg_count_mem mem, normalize_msg_count_int newMsg,
            normalize_msg_count_int newMsg - normalize_msg_count_mem mem, src⟩]
         else []),
        true⟩ := by
  simp only [cas_update_diary_msg_count, if_neg h1, if_neg h2, h3]
  simp

/-- A CAS whose conditional update matched a rowcount other than one reports
failure with no event (the table rows matched, if any, are still written by
the executed `UPDATE`). -/
theorem cas_rowcount_ne_one_shape (db : List DiaryState) (mem : Option Int)
    (accId newMsg : Int) (src : String) (slid : Option Int) (did : Int)
    (h1 : ¬did ≤ 0)
    (h2 : ¬(¬mem.isNone = true ∧ normalize_msg_count_int newMsg = normalize_msg_count_mem mem))
    (h3 : (db.filter (cas_where_match did accId (normalize_msg_count_mem mem))).length ≠ 1) :
    cas_update_diary_msg_count db (some did) mem accId newMsg src slid =
      ⟨db.map (fun r =>
          if cas_where_match did accId (normalize_msg_count_mem mem) r
          then { r with msg_count := some (normalize_msg_count_int newMsg) } else r),
        mem, [], false⟩ := by
  simp only [cas_update_diary_msg_count, if_neg h1, if_neg h2]
  simp [h3]

/-- A CAS halted by a guard (invalid diary id, or the non-null equality
no-op) changes nothing and reports failure. -/
theorem cas_guard_shape (db : List DiaryState) (mem : Option Int) (accId newMsg : Int)
    (src : String) (slid : Option Int) (did : Int)
    (h : did ≤ 0 ∨
      (¬mem.isNone = true ∧ normalize_msg_count_int newMsg = normalize_msg_count_mem mem)) :
    cas_update_diary_msg_count db (some did) mem accId newMsg src slid =
      ⟨db, mem, [], false⟩ := by
  rcases h with h | h
  · simp [cas_update_diary_msg_count, h]
  · by_cases h1 : did ≤ 0
    · simp [cas_update_diary_msg_count, h1]
    · simp [cas_update_diary_msg_count, h1, h]

/-- A `updated = true` result forces every guard to have passed and the
conditional update to have matched exactly one row. -/
theorem cas_updated_elim (db : List DiaryState) (mem : Option Int) (accId newMsg : Int)
    (src : String) (slid : Option Int) (did : Int)
    (h : (cas_update_diary_msg_count db (some did) mem accId newMsg src slid).updated = true) :
    ¬did ≤ 0 ∧
    ¬(¬mem.isNone = true ∧ normalize_msg_count_int newMsg = normalize_msg_count_mem mem) ∧
    (db.filter (cas_where_match did accId (normalize_msg_count_mem mem))).length = 1 := by
  by_cases h1 : did ≤ 0
  · rw [cas_guard_shape db mem accId newMsg src slid did (Or.inl h1)] at h
    simp at h
  by_cases h2 : ¬mem.isNone = true ∧ normalize_msg_count_int newMsg = normalize_msg_count_mem mem
  · rw [cas_guard_shape db mem accId newMsg src slid did (Or.inr h2)] at h
    simp at h
  by_cases h3 : (db.filter (cas_where_match did accId (normalize_msg_count_mem mem))).length = 1
  · exact ⟨h1, h2, h3⟩
  · rw [cas_rowcount_ne_one_shape db mem accId newMsg src slid did h1 h2 h3] at h
    simp at h

/-- From a rowcount of one, extract the matched row and its updated image. -/
theorem cas_matched_row_updated (db : List DiaryState) (old newn : Int) (accId did : Int)
    (h : (db.filter (cas_where_match did accId old)).length = 1) :
    ∃ r, r ∈ db.map (fun r =>
        if cas_where_match did accId old r
        then { r with msg_count := some newn } else r) ∧
      r.id = some did ∧ r.account_id = accId ∧ r.msg_count = some newn := by
  obtain ⟨a, ha⟩ := List.length_eq_one.mp h
  have hmem : a ∈ db.filter (cas_where_match did accId old) := by simp [ha]
  have hin : a ∈ db := List.mem_of_mem_filter hmem
  have hp : cas_where_match did accId old a = true := List.of_mem_filter hmem
  refine ⟨{ a with msg_count := some newn }, ?_, ?_, ?_, rfl⟩
  · refine List.mem_map.mpr ⟨a, hin, ?_⟩
    simp [hp]
  · have := of_decide_eq_true hp
    exact this.1
  · have hp' := of_decide_eq_true hp
    exact hp'.2.1

/-- A concrete one-row diary table used by several witnesses. -/
def mkDiaryRow (did : Int) (acc : Int) (msg : Option Int) : DiaryState :=
  { id := some did, nideriji_diary_id := 7, user_id := 1, account_id := acc,
    title := none, content := none, created_date := none, created_time := none,
    weather := none, mood := none, mood_id := none, mood_color := none,
    space := none, is_simple := none, msg_count := msg, ts := none }

/-! ## Claims -/

/-- C2: whenever the message-count CAS update succeeds, exactly one
`DiaryMsgCountEvent` row — carrying the delta between the normalized new and
old counts, the nullable sync-log id and the source tag — is inserted if and
only if that delta is strictly positive; on a decrease the matched stored
row is still set to the new value but zero event rows are inserted. -/
theorem cas_growth_only_ledger (db : List DiaryState) (mem : Option Int)
    (accId newMsg : Int) (src : String) (slid : Option Int) (did : Int)
    (hupd : (cas_update_diary_msg_count db (some did) mem accId newMsg src slid).updated
      = true) :
    ((cas_update_diary_msg_count db (some did) mem accId newMsg src slid).events.length = 1
      ↔ 0 < normalize_msg_count_int newMsg - normalize_msg_count_mem mem) ∧
    (0 < normalize_msg_count_int newMsg - normalize_msg_count_mem mem →
      (cas_update_diary_msg_count db (some did) mem accId newMsg src slid).events =
        [⟨accId, did, slid, normalize_msg_count_mem mem, normalize_msg_count_int newMsg,
          normalize_msg_count_int newMsg - normalize_msg_count_mem mem, src⟩]) ∧
    (normalize_msg_count_int newMsg - normalize_msg_count_mem mem ≤ 0 →
      (cas_update_diary_msg_count db (some did) mem accId newMsg src slid).events = []) ∧
    (∃ r, r ∈ (cas_update_diary_msg_count db (some did) mem accId newMsg src slid).db ∧
      r.id = some did ∧ r.account_id = accId ∧
      r.msg_count = some (normalize_msg_count_int newMsg)) := by
  obtain ⟨h1, h2, h3⟩ := cas_updated_elim db mem accId newMsg src slid did hupd
  rw [cas_success_shape db mem accId newMsg src slid did h1 h2 h3]
  refine ⟨?_, ?_, ?_, ?_⟩
  · by_cases hd : 0 < normalize_msg_count_int newMsg - normalize_msg_count_mem mem <;>
      simp [hd]
  · intro hd; simp [hd]
  · intro hd; simp [not_lt.mpr hd]
  · exact cas_matched_row_updated db (normalize_msg_count_mem mem)
      (normalize_msg_count_int newMsg) accId did h3

/-- Witness for C2: the 10→7 decrease of the claim text — the CAS succeeds,
the stored value becomes 7, and no ledger row is inserted. -/
theorem cas_growth_only_ledger_witness :
    (cas_update_diary_msg_count [mkDiaryRow 1 9 (some 10)] (some 1) (some 10) 9 7 "sync"
      none).updated = true ∧
    (cas_update_diary_msg_count [mkDiaryRow 1 9 (some 10)] (some 1) (some 10) 9 7 "sync"
      none).events = [] ∧
    (cas_update_diary_msg_count [mkDiaryRow 1 9 (some 10)] (some 1) (some 10) 9 7 "sync"
      none).db = [mkDiaryRow 1 9 (some 7)] :=
  ⟨by decide,
   (cas_growth_only_ledger [mkDiaryRow 1 9 (some 10)] (some 10) 9 7 "sync" none 1
      (by decide)).2.2.1 (by decide),
   by decide⟩

/-- C3: without raising, the CAS returns `false` and inserts no event both
when the stored in-memory count is non-null and equal to the normalized new
value (no-op) and when the conditional update matches a rowcount other than
one (concurrent-writer loss); it returns `true` only when the conditional
update affects exactly one row. -/
theorem cas_result_semantics (db : List DiaryState) (mem : Option Int)
    (accId newMsg : Int) (src : String) (slid : Option Int) (did : Int) :
    (∀ m, mem = some m →
      normalize_msg_count_int newMsg = normalize_msg_count_mem mem →
      cas_update_diary_msg_count db (some did) mem accId newMsg src slid =
        ⟨db, mem, [], false⟩) ∧
    (¬did ≤ 0 →
      (mem.isNone = true ∨
        normalize_msg_count_int newMsg ≠ normalize_msg_count_mem mem) →
      (db.filter (cas_where_match did accId (normalize_msg_count_mem mem))).length ≠ 1 →
      (cas_update_diary_msg_count db (some did) mem accId newMsg src slid).updated =
        false ∧
      (cas_update_diary_msg_count db (some did) mem accId newMsg src slid).events = []) ∧
    ((cas_update_diary_msg_count db (some did) mem accId newMsg src slid).updated = true →
      (db.filter (cas_where_match did accId (normalize_msg_count_mem mem))).length = 1) := by
  refine ⟨?_, ?_, ?_⟩
  · intro m hm heq
    refine cas_guard_shape db mem accId newMsg src slid did (Or.inr ⟨?_, heq⟩)
    simp [hm]
  · intro h1 hno h3
    have h2 : ¬(¬mem.isNone = true ∧
        normalize_msg_count_int newMsg = normalize_msg_count_mem mem) := by
      rcases hno with hno | hno
      · intro hc; exact hc.1 hno
      · intro hc; exact hno hc.2
    rw [cas_rowcount_ne_one_shape db mem accId newMsg src slid did h1 h2 h3]
    exact ⟨rfl, rfl⟩
  · intro hupd
    exact (cas_updated_elim db mem accId newMsg src slid did hupd).2.2

/-- Witness for C3: a no-op (stored 5, incoming 5) and a rowcount-0 loss
(in-memory view says 5 but the table row already holds 6). -/
theorem cas_result_semantics_witness :
    (cas_update_diary_msg_count [mkDiaryRow 1 9 (some 5)] (some 1) (some 5) 9 5 "sync"
        none = ⟨[mkDiaryRow 1 9 (some 5)], some 5, [], false⟩) ∧
    ((cas_update_diary_msg_count [mkDiaryRow 1 9 (some 6)] (some 1) (some 5) 9 8 "sync"
        none).updated = false ∧
      (cas_update_diary_msg_count [mkDiaryRow 1 9 (some 6)] (some 1) (some 5) 9 8 "sync"
        none).events = []) :=
  ⟨(cas_result_semantics [mkDiaryRow 1 9 (some 5)] (some 5) 9 5 "sync" none 1).1 5 rfl
      (by decide),
   (cas_result_semantics [mkDiaryRow 1 9 (some 6)] (some 5) 9 8 "sync" none 1).2.1
      (by decide) (by decide) (by decide)⟩

/-- C9: with a stored `NULL` in-memory message count and an incoming count
normalizing to 0, the CAS skips the equality no-op (it only fires for
non-null stored values), executes the conditional update — whose condition
matches a stored `NULL` or `0` — writes `0`, inserts no event (the delta is
zero), and returns `true`. -/
theorem cas_null_count_zero_update (db : List DiaryState) (accId newMsg : Int)
    (src : String) (slid : Option Int) (did : Int) (hdid : 0 < did)
    (hnew : normalize_msg_count_int newMsg = 0)
    (hrc : (db.filter (cas_where_match did accId 0)).length = 1) :
    (cas_update_diary_msg_count db (some did) none accId newMsg src slid).updated = true ∧
    (cas_update_diary_msg_count db (some did) none accId newMsg src slid).events = [] ∧
    (∃ r, r ∈ (cas_update_diary_msg_count db (some did) none accId newMsg src slid).db ∧
      r.id = some did ∧ r.account_id = accId ∧ r.msg_count = some 0) := by
  have h1 : ¬did ≤ 0 := by omega
  have h2 : ¬(¬(none : Option Int).isNone = true ∧
      normalize_msg_count_int newMsg = normalize_msg_count_mem none) := by
    intro hc; exact hc.1 rfl
  have hrc' : (db.filter (cas_where_match did accId (normalize_msg_count_mem none))).length
      = 1 := hrc
  rw [cas_success_shape db none accId newMsg src slid did h1 h2 hrc']
  refine ⟨rfl, ?_, ?_⟩
  · simp [hnew, normalize_msg_count_mem]
  · have h := cas_matched_row_updated db (normalize_msg_count_mem none)
      (normalize_msg_count_int newMsg) accId did hrc'
    simpa [hnew] using h

/-- Witness for C9: a table row with `msg_count = NULL` matched by the
`NULL`-or-`0` condition; the row ends at 0 with no event and `true`. -/
theorem cas_null_count_zero_update_witness :
    (cas_update_diary_msg_count [mkDiaryRow 3 9 none] (some 3) none 9 0 "refresh"
      none).updated = true ∧
    (cas_update_diary_msg_count [mkDiaryRow 3 9 none] (some 3) none 9 0 "refresh"
      none).events = [] :=
  ⟨(cas_null_count_zero_update [mkDiaryRow 3 9 none] 9 0 "refresh" none 3 (by decide)
      (by decide) (by decide)).1,
   (cas_null_count_zero_update [mkDiaryRow 3 9 none] 9 0 "refresh" none 3 (by decide)
      (by decide) (by decide)).2.1⟩

/-- Number of `PairedRelationship` rows for one (account, partner) pair. -/
def count_pair (rels : List PairedRelationship) (accountId pairedUserId : Int) : Nat :=
  (rels.filter (pair_match accountId pairedUserId)).length

/-- C7: the pairing resolver is idempotent — with a row already present the
call is a no-op returning the list unchanged (so no field, including the
paired time, moves); with no row present it appends a single new active row
carrying the converted upstream paired time (or null); calling it twice for
the same (account, partner) leaves exactly one row for the pair. -/
theorem save_paired_relationship_idempotent (rels : List PairedRelationship)
    (a m p : Int) (cfg cfg2 : RawRecord) (h : count_pair rels a p ≤ 1) :
    (count_pair rels a p = 1 → save_paired_relationship rels a m p cfg = .ok rels) ∧
    (count_pair rels a p = 0 →
      save_paired_relationship rels a m p cfg =
        .ok (rels ++ [⟨a, m, p,
          (match pyGet cfg "paired_time" with
           | some v => if pyTruthy v then to_utc_datetime v else none
           | none => none), true⟩])) ∧
    (∃ rels1, save_paired_relationship rels a m p cfg = .ok rels1 ∧
      save_paired_relationship rels1 a m p cfg2 = .ok rels1 ∧
      count_pair rels1 a p = 1) := by
  cases hf : rels.filter (pair_match a p) with
  | nil =>
    have hc0 : count_pair rels a p = 0 := by rw [count_pair, hf]; rfl
    have hsave : save_paired_relationship rels a m p cfg =
        .ok (rels ++ [⟨a, m, p,
          (match pyGet cfg "paired_time" with
           | some v => if pyTruthy v then to_utc_datetime v else none
           | none => none), true⟩]) := by
      unfold save_paired_relationship
      rw [hf]
    refine ⟨fun h1 => absurd (hc0 ▸ h1) (by simp), fun _ => hsave, ?_⟩
    refine ⟨_, hsave, ?_, ?_⟩
    · have hf2 : (rels ++ [(⟨a, m, p,
          (match pyGet cfg "paired_time" with
           | some v => if pyTruthy v then to_utc_datetime v else none
           | none => none), true⟩ : PairedRelationship)]).filter (pair_match a p) =
          [⟨a, m, p,
            (match pyGet cfg "paired_time" with
             | some v => if pyTruthy v then to_utc_datetime v else none
             | none => none), true⟩] := by
        rw [List.filter_append, hf]
        simp [pair_match]
      unfold save_paired_relationship
      rw [hf2]
    · rw [count_pair, List.filter_append, hf]
      simp [pair_match]
  | cons x rest =>
    cases rest with
    | nil =>
      have hc1 : count_pair rels a p = 1 := by rw [count_pair, hf]; rfl
      have hsave : save_paired_relationship rels a m p cfg = .ok rels := by
        unfold save_paired_relationship
        rw [hf]
      refine ⟨fun _ => hsave, fun h0 => absurd (hc1 ▸ h0.symm) (by simp), ?_⟩
      refine ⟨rels, hsave, ?_, hc1⟩
      unfold save_paired_relationship
      rw [hf]
    | cons y rest' =>
      exfalso
      have h2 : 2 ≤ count_pair rels a p := by
        rw [count_pair, hf]
        simp
      omega

/-- Witness for C7: an empty table, then the inserted row found on the
second call. -/
theorem save_paired_relationship_idempotent_witness :
    count_pair [] 1 2 ≤ 1 ∧
    (∃ rels1, save_paired_relationship [] 1 5 2 [] = .ok rels1 ∧
      save_paired_relationship rels1 1 5 2 [] = .ok rels1 ∧
      count_pair rels1 1 2 = 1) :=
  ⟨by decide, (save_paired_relationship_idempotent [] 1 5 2 [] [] (by decide)).2.2⟩

/-- C4: the auto-relogin wrapper shared by `fetch_nideriji_data_for_account`
and `write_diary_for_account` — on an HTTP 401/403 with both a non-empty
email and a non-empty stored password it logs in exactly once, writes the
new token onto the account, and retries the operation exactly once with the
new token, a second failure propagating as the retry's own result; on a
401/403 without both credentials, or on any non-401/403 error, the original
error propagates at once with no login call and no retry. -/
theorem with_auto_relogin_token_lifecycle {α : Type}
    (operation : String → Except CallError α) (login : Except CallError String)
    (email login_password : Option String) (tok : String) :
    (∀ code new_tok, operation tok = .error (.httpStatus code) →
      (code = 401 ∨ code = 403) →
      strTruthyOpt email = true → strTruthyOpt login_password = true →
      login = .ok new_tok →
      with_auto_relogin operation login email login_password tok =
        ⟨operation new_tok, new_tok, [.opCall tok, .loginCall, .opCall new_tok]⟩) ∧
    (∀ code, operation tok = .error (.httpStatus code) → (code = 401 ∨ code = 403) →
      ¬(strTruthyOpt email = true ∧ strTruthyOpt login_password = true) →
      with_auto_relogin operation login email login_password tok =
        ⟨.error (.httpStatus code), tok, [.opCall tok]⟩) ∧
    (∀ e, operation tok = .error e →
      (∀ code, e = .httpStatus code → code ≠ 401 ∧ code ≠ 403) →
      with_auto_relogin operation login email login_password tok =
        ⟨.error e, tok, [.opCall tok]⟩) := by
  refine ⟨?_, ?_, ?_⟩
  · intro code new_tok hop hcode hem hpw hlog
    have hc : ((code == 401 || code == 403) && strTruthyOpt email &&
        strTruthyOpt login_password) = true := by
      rcases hcode with h | h <;> simp [h, hem, hpw]
    simp [with_auto_relogin, hop, hc, hlog]
  · intro code hop hcode hcred
    have hc : ((code == 401 || code == 403) && strTruthyOpt email &&
        strTruthyOpt login_password) = false := by
      by_cases he : strTruthyOpt email = true
      · by_cases hp : strTruthyOpt login_password = true
        · exact absurd ⟨he, hp⟩ hcred
        · simp only [Bool.not_eq_true] at hp
          simp [hp]
      · simp only [Bool.not_eq_true] at he
        simp [he]
    simp [with_auto_relogin, hop, hc]
  · intro e hop hne
    cases e with
    | httpStatus code =>
      have h401 : code ≠ 401 := (hne code rfl).1
      have h403 : code ≠ 403 := (hne code rfl).2
      have hc : ((code == 401 || code == 403) && strTruthyOpt email &&
          strTruthyOpt login_password) = false := by
        simp [h401, h403]
      simp [with_auto_relogin, hop, hc]
    | network => simp [with_auto_relogin, hop]
    | appError msg => simp [with_auto_relogin, hop]

/-- Witness for C4: a stale token rejected with 401, credentials present, a
login returning a fresh token, the retry succeeding. -/
theorem with_auto_relogin_token_lifecycle_witness :
    ((fun t => if t = "fresh" then (.ok 5 : Except CallError Nat)
       else .error (.httpStatus 401)) "stale" = .error (.httpStatus 401)) ∧
    with_auto_relogin
        (fun t => if t = "fresh" then (.ok 5 : Except CallError Nat)
          else .error (.httpStatus 401))
        (.ok "fresh") (some "a@b.c") (some "pw") "stale" =
      ⟨.ok 5, "fresh", [.opCall "stale", .loginCall, .opCall "fresh"]⟩ := by
  refine ⟨rfl, ?_⟩
  have h := (with_auto_relogin_token_lifecycle
      (fun t => if t = "fresh" then (.ok 5 : Except CallError Nat)
        else .error (.httpStatus 401))
      (.ok "fresh") (some "a@b.c") (some "pw") "stale").1 401 "fresh"
      rfl (Or.inl rfl) (by decide) (by decide) rfl
  rw [h]
  rfl

/-- C10: a batch record whose `id` field is missing or not an integer is
skipped silently — the loop step leaves the state untouched and raises
nothing, the surrounding loop behaves as if the record were absent (so every
other record is still processed), and the record contributes nothing to the
detail-fetch request ids. -/
theorem save_diaries_malformed_id_skipped (accId uid : Int) (slid : Option Int)
    (details : List (Int × RawRecord)) (req : List Int) (d : RawRecord)
    (hmal : pyAsInt (pyGet d "id") = none) :
    (∀ st, save_diary_step accId uid slid details req st d = .ok st) ∧
    (∀ st pre post, save_diaries_loop accId uid slid details req st (pre ++ d :: post) =
      save_diaries_loop accId uid slid details req st (pre ++ post)) ∧
    (∀ exm stm diaries1 diaries2,
      compute_need_detail_ids (diaries1 ++ d :: diaries2) exm stm =
        compute_need_detail_ids (diaries1 ++ diaries2) exm stm) := by
  have hstep : ∀ st, save_diary_step accId uid slid details req st d = .ok st := by
    intro st
    unfold save_diary_step
    rw [hmal]
  refine ⟨hstep, ?_, ?_⟩
  · intro st pre post
    induction pre generalizing st with
    | nil =>
      simp only [List.nil_append, save_diaries_loop, hstep st]
    | cons d' pre' ih =>
      simp only [List.cons_append, save_diaries_loop]
      cases save_diary_step accId uid slid details req st d' with
      | error e => rfl
      | ok st' => exact ih st'
  · intro exm stm diaries1 diaries2
    unfold compute_need_detail_ids
    rw [List.filterMap_append, List.filterMap_append]
    have hrec : need_detail_for_record exm stm d = none := by
      unfold need_detail_for_record
      rw [hmal]
    simp [hrec]

/-- Witness for C10: a record whose id is the string form of a number. -/
theorem save_diaries_malformed_id_skipped_witness :
    pyAsInt (pyGet [("id", JsonVal.jstr "12"), ("content", JsonVal.jstr "x")] "id")
      = none ∧
    save_diary_step 1 1 none [] [] ⟨[], [], [], [], [], 0, []⟩
      [("id", JsonVal.jstr "12"), ("content", JsonVal.jstr "x")] =
      .ok ⟨[], [], [], [], [], 0, []⟩ :=
  ⟨by decide,
   (save_diaries_malformed_id_skipped 1 1 none [] []
      [("id", JsonVal.jstr "12"), ("content", JsonVal.jstr "x")] (by decide)).1
      ⟨[], [], [], [], [], 0, []⟩⟩

/-- C6: during batch sync, an existing diary whose `DiaryDetailFetch` row
carries `last_detail_success = true` and `last_detail_is_short = true` is
excluded from the ids passed to the detail-fetch request even when its raw
record still tests as needing detail, so no detail-fetch network call is
made for it. -/
theorem detail_fetch_suppression (diaries : List RawRecord)
    (exm : List (Int × DiaryState)) (stm : List (Int × DiaryDetailFetch))
    (d : RawRecord) (i : Int) (ex : DiaryState) (dbId : Int) (fs : DiaryDetailFetch)
    (hd : d ∈ diaries) (hid : pyAsInt (pyGet d "id") = some i)
    (hneed : needs_detail_fetch (pyGet d "content") (pyGet d "is_simple") = true)
    (hex : lookupAssoc exm i = some ex) (hexid : ex.id = some dbId) (hdb : 0 < dbId)
    (hst : lookupAssoc stm dbId = some fs)
    (hsucc : fs.last_detail_success = true) (hshort : fs.last_detail_is_short = true) :
    i ∉ compute_need_detail_ids diaries exm stm := by
  have hone : ∀ d', need_detail_for_record exm stm d' ≠ some i := by
    intro d'
    unfold need_detail_for_record
    split
    · exact Option.noConfusion
    · next j heq =>
      split
      · exact Option.noConfusion
      · split
        · next hlk =>
          intro hc
          obtain rfl : j = i := Option.some.inj hc
          rw [hex] at hlk
          exact Option.noConfusion hlk
        · next ex' hlk =>
          split
          · exact Option.noConfusion
          · next hlong =>
            split
            · next fs' hstate =>
              split
              · exact Option.noConfusion
              · next hflags =>
                intro hc
                obtain rfl : j = i := Option.some.inj hc
                rw [hex] at hlk
                obtain rfl : ex = ex' := Option.some.inj hlk
                rw [hexid] at hstate
                simp only [detail_state_for] at hstate
                rw [if_pos hdb, hst] at hstate
                obtain rfl : fs = fs' := Option.some.inj hstate
                exact hflags ⟨hsucc, hshort⟩
            · next hstate =>
              intro hc
              obtain rfl : j = i := Option.some.inj hc
              rw [hex] at hlk
              obtain rfl : ex = ex' := Option.some.inj hlk
              rw [hexid] at hstate
              simp only [detail_state_for] at hstate
              rw [if_pos hdb, hst] at hstate
              exact Option.noConfusion hstate
  intro hmem
  obtain ⟨d', _, hrec⟩ := List.mem_filterMap.mp hmem
  exact hone d' hrec

/-- Witness for C6: a short preview for diary 5 whose detail-state row says
the last detail fetch succeeded but stayed short — id 5 is not requested. -/
theorem detail_fetch_suppression_witness :
    needs_detail_fetch
        (pyGet [("id", JsonVal.jint 5), ("content", JsonVal.jstr "short")] "content")
        (pyGet [("id", JsonVal.jint 5), ("content", JsonVal.jstr "short")] "is_simple")
      = true ∧
    (5 : Int) ∉ compute_need_detail_ids
        [[("id", JsonVal.jint 5), ("content", JsonVal.jstr "short")]]
        [(5, mkDiaryRow 11 9 none)]
        [(11, ⟨some 11, 5, 1, true, true, some 3, none⟩)] :=
  ⟨by decide,
   detail_fetch_suppression
     [[("id", JsonVal.jint 5), ("content", JsonVal.jstr "short")]]
     [(5, mkDiaryRow 11 9 none)]
     [(11, ⟨some 11, 5, 1, true, true, some 3, none⟩)]
     [("id", JsonVal.jint 5), ("content", JsonVal.jstr "short")]
     5 (mkDiaryRow 11 9 none) 11 ⟨some 11, 5, 1, true, true, some 3, none⟩
     (by simp) (by decide) (by decide) (by decide) (by decide) (by decide)
     (by decide) rfl rfl⟩

/-- In the non-regression guard branch (short candidate, long stored
content), `save_diary_update` applies only the CAS side effects: the diary
keeps its title and its content. -/
theorem save_diary_update_guard (accId : Int) (slid : Option Int)
    (details : List (Int × RawRecord)) (req : List Int) (st : SaveLoopState)
    (i : Int) (dd : RawRecord) (diary0 : DiaryState)
    (hshort : content_len (some (getContentText dd)) < DETAIL_CONTENT_MIN_LEN)
    (hlong : DETAIL_CONTENT_MIN_LEN ≤ content_len diary0.content) :
    ∃ diary',
      lookupAssoc (save_diary_update accId slid details req st i dd diary0).existing_by_id i
        = some diary' ∧
      diary'.title = diary0.title ∧ diary'.content = diary0.content := by
  simp only [save_diary_update, content_len_some_getD]
  rw [if_pos ⟨hshort, hlong⟩]
  exact ⟨_, lookupAssoc_insertAssoc_self _ _ _, rfl, rfl⟩

/-- C1: reconciling an incoming record whose merged candidate content has
stripped length below the 100-character threshold against an existing diary
whose stored content has stripped length at least the threshold leaves the
diary's content and title unchanged, both in the `_save_diaries` batch path
and in the `refresh_diary` path (the message count may still move through
the separate CAS path, which the conclusion does not constrain). -/
theorem nonregression_guard :
    (∀ (accId uid : Int) (slid : Option Int) (details : List (Int × RawRecord))
        (req : List Int) (st : SaveLoopState) (d : RawRecord) (i : Int)
        (diary0 : DiaryState),
      pyAsInt (pyGet d "id") = some i →
      lookupAssoc st.existing_by_id i = some diary0 →
      DETAIL_CONTENT_MIN_LEN ≤ content_len diary0.content →
      content_len (some (getContentText
        (match lookupAssoc details i with
         | some det => merge_diary_data d det
         | none => d))) < DETAIL_CONTENT_MIN_LEN →
      ∃ st', save_diary_step accId uid slid details req st d = .ok st' ∧
        ∃ diary', lookupAssoc st'.existing_by_id i = some diary' ∧
          diary'.title = diary0.title ∧ diary'.content = diary0.content) ∧
    (∀ (diary0 : DiaryState) (db : List DiaryState) (dd : RawRecord) (u ar sf : Bool),
      DETAIL_CONTENT_MIN_LEN ≤ content_len diary0.content →
      content_len (some (stripBom (getContentText dd))) < DETAIL_CONTENT_MIN_LEN →
      (refresh_apply diary0 db (some dd) u ar sf).diary.title = diary0.title ∧
      (refresh_apply diary0 db (some dd) u ar sf).diary.content = diary0.content) := by
  constructor
  · intro accId uid slid details req st d i diary0 hid hex hlong hshort
    have hstep : save_diary_step accId uid slid details req st d =
        .ok (save_diary_update accId slid details req st i
          (match lookupAssoc details i with
           | some det => merge_diary_data d det
           | none => d) diary0) := by
      simp only [save_diary_step, hid, hex]
    exact ⟨_, hstep, save_diary_update_guard accId slid details req st i _ diary0
      hshort hlong⟩
  · intro diary0 db dd u ar sf hlong hshort
    simp only [refresh_apply]
    rw [if_pos ⟨hshort, hlong⟩]
    split <;> exact ⟨rfl, rfl⟩

/-- A stored diary with 120 characters of complete content. -/
def c1_diary : DiaryState :=
  ⟨some 11, 5, 1, 9, some "t", some (String.mk (List.replicate 120 'a')),
    none, none, none, none, none, none, none, none, some 2, none⟩

/-- A short incoming record for the same diary, also raising the count. -/
def c1_rec : RawRecord :=
  [("id", JsonVal.jint 5), ("content", JsonVal.jstr "hi"),
   ("msg_count", JsonVal.jint 4)]

/-- Loop state holding `c1_diary` both as the loaded batch entry and as the
table row the CAS targets. -/
def c1_st : SaveLoopState := ⟨[(5, c1_diary)], [c1_diary], [], [], [], 0, []⟩

/-- Witness for C1: the short record leaves title and content untouched in
both paths. -/
theorem nonregression_guard_witness :
    (DETAIL_CONTENT_MIN_LEN ≤ content_len c1_diary.content ∧
     content_len (some (getContentText c1_rec)) < DETAIL_CONTENT_MIN_LEN) ∧
    (∃ st', save_diary_step 9 1 none [] [] c1_st c1_rec = .ok st' ∧
      ∃ diary', lookupAssoc st'.existing_by_id 5 = some diary' ∧
        diary'.title = c1_diary.title ∧ diary'.content = c1_diary.content) ∧
    ((refresh_apply c1_diary [c1_diary] (some c1_rec) false false true).diary.title
        = c1_diary.title ∧
     (refresh_apply c1_diary [c1_diary] (some c1_rec) false false true).diary.content
        = c1_diary.content) :=
  ⟨⟨by decide, by decide⟩,
   nonregression_guard.1 9 1 none [] [] c1_st c1_rec 5 c1_diary (by decide) (by decide)
     (by decide) (by decide),
   nonregression_guard.2 c1_diary [c1_diary] c1_rec false false true (by decide)
     (by decide)⟩

/-- A stored diary with short content `"x"`. -/
def c8_diary : DiaryState :=
  ⟨some 11, 5, 1, 9, some "t", some "x", none, none, none, none, none, none,
    none, none, some 0, none⟩

/-- An incoming record whose content starts with a BOM. -/
def c8_rec : RawRecord :=
  [("id", JsonVal.jint 5), ("content", JsonVal.jstr "﻿hello"),
   ("title", JsonVal.jstr "t")]

def c8_st : SaveLoopState := ⟨[(5, c8_diary)], [c8_diary], [], [], [], 0, []⟩

/-- C8 fails on the code: in the `_save_diaries` batch path a leading BOM is
neither stripped before storage (diary 5 ends up storing the BOM-prefixed
string) nor before the threshold comparison (`_content_len` strips only
whitespace, so a BOM-prefixed string of 99 further characters measures
exactly 100 and passes the completeness threshold). -/
theorem bom_handling_counterexample :
    ((save_diary_step 9 1 none [] [] c8_st c8_rec).toOption.bind
        (fun s => lookupAssoc s.existing_by_id 5)).map DiaryState.content
      = some (some "﻿hello") ∧
    stripBom "﻿hello" = "hello" ∧
    ("﻿hello" : String) ≠ "hello" ∧
    content_len (some (String.mk ('﻿' :: List.replicate 99 'a')))
      = DETAIL_CONTENT_MIN_LEN ∧
    content_len (some (stripBom (String.mk ('﻿' :: List.replicate 99 'a'))))
      = DETAIL_CONTENT_MIN_LEN - 1 := by
  decide

/-- Whatever the refresh-apply stage does, the final diary's content is the
old stored content or the BOM-stripped incoming text. -/
theorem refresh_apply_content_cases (diary0 : DiaryState) (db : List DiaryState)
    (dd : RawRecord) (u ar sf : Bool) :
    (refresh_apply diary0 db (some dd) u ar sf).diary.content = diary0.content ∨
    (refresh_apply diary0 db (some dd) u ar sf).diary.content
      = some (stripBom (getContentText dd)) := by
  simp only [refresh_apply]
  repeat' split
  all_goals first
    | exact Or.inl rfl
    | exact Or.inr rfl

/-- Whatever the batch update branch does, the stored content afterwards is
the old stored content or the raw (not BOM-stripped) incoming text. -/
theorem save_diary_update_content_cases (accId : Int) (slid : Option Int)
    (details : List (Int × RawRecord)) (req : List Int) (st : SaveLoopState)
    (i : Int) (dd : RawRecord) (diary0 : DiaryState) :
    ∃ diary',
      lookupAssoc (save_diary_update accId slid details req st i dd diary0).existing_by_id i
        = some diary' ∧
      (diary'.content = diary0.content ∨ diary'.content = some (getContentText dd)) := by
  simp only [save_diary_update]
  repeat' split
  all_goals simp only [record_detail_result_existing_by_id]
  all_goals refine ⟨_, lookupAssoc_insertAssoc_self _ _ _, ?_⟩
  all_goals first
    | exact Or.inl rfl
    | exact Or.inr rfl

/-- C8 as amended: BOM stripping happens only in the refresh path — there
any newly stored content is exactly the BOM-stripped incoming text (the same
stripped string the guard measured); in the batch path any newly stored
content is the raw merged text with the BOM kept, and the threshold uses
`_content_len`, which strips only whitespace. -/
theorem bom_stripping_amended :
    (∀ (diary0 : DiaryState) (db : List DiaryState) (dd : RawRecord) (u ar sf : Bool),
      (refresh_apply diary0 db (some dd) u ar sf).diary.content ≠ diary0.content →
      (refresh_apply diary0 db (some dd) u ar sf).diary.content
        = some (stripBom (getContentText dd))) ∧
    (∀ (accId uid : Int) (slid : Option Int) (details : List (Int × RawRecord))
        (req : List Int) (st : SaveLoopState) (d : RawRecord) (i : Int)
        (diary0 : DiaryState) (st' : SaveLoopState) (diary' : DiaryState),
      pyAsInt (pyGet d "id") = some i →
      lookupAssoc st.existing_by_id i = some diary0 →
      save_diary_step accId uid slid details req st d = .ok st' →
      lookupAssoc st'.existing_by_id i = some diary' →
      diary'.content ≠ diary0.content →
      diary'.content = some (getContentText
        (match lookupAssoc details i with
         | some det => merge_diary_data d det
         | none => d))) := by
  constructor
  · intro diary0 db dd u ar sf hne
    rcases refresh_apply_content_cases diary0 db dd u ar sf with h | h
    · exact absurd h hne
    · exact h
  · intro accId uid slid details req st d i diary0 st' diary' hid hex hstep hlk hne
    have hstep' : save_diary_step accId uid slid details req st d =
        .ok (save_diary_update accId slid details req st i
          (match lookupAssoc details i with
           | some det => merge_diary_data d det
           | none => d) diary0) := by
      simp only [save_diary_step, hid, hex]
    rw [hstep'] at hstep
    obtain rfl : save_diary_update accId slid details req st i
        (match lookupAssoc details i with
         | some det => merge_diary_data d det
         | none => d) diary0 = st' := Except.ok.inj hstep
    obtain ⟨diary'', hlk'', hcases⟩ := save_diary_update_content_cases accId slid
      details req st i
      (match lookupAssoc details i with
       | some det => merge_diary_data d det
       | none => d) diary0
    rw [hlk] at hlk''
    obtain rfl : diary' = diary'' := Option.some.inj hlk''
    rcases hcases with h | h
    · exact absurd h hne
    · exact h

/-- Witness for the amended C8: a BOM-prefixed incoming text in the refresh
path is stored BOM-stripped. -/
theorem bom_stripping_amended_witness :
    (refresh_apply c8_diary [] (some c8_rec) false false true).diary.content
      = some (stripBom (getContentText c8_rec)) ∧
    stripBom (getContentText c8_rec) = "hello" :=
  ⟨bom_stripping_amended.1 c8_diary [] c8_rec false false true (by decide), by decide⟩

/-! ## C5: the retry policy of `request_with_retry` -/

/-- The loop performs at most `remaining` request calls. -/
theorem retry_go_attempts_le (outcomes : Nat → AttemptOutcome) (rand : Nat → ℚ)
    (base maxb jit : ℚ) : ∀ (r a : Nat),
    (retry_go outcomes rand base maxb jit a r).attempts_made ≤ r := by
  intro r
  induction r with
  | zero => intro a; simp [retry_go]
  | succ r ih =>
    intro a
    unfold retry_go
    cases outcomes a with
    | response s => simp
    | requestError =>
      by_cases hr : r = 0
      · simp [hr]
      · rw [if_neg hr]
        exact Nat.succ_le_succ (ih (a + 1))

/-- With every attempt failing at the network layer, the loop exhausts all
attempts, re-raises the error, and computes one backoff per retry. -/
theorem retry_go_all_network (outcomes : Nat → AttemptOutcome) (rand : Nat → ℚ)
    (base maxb jit : ℚ) (hall : ∀ i, outcomes i = .requestError) : ∀ (r a : Nat),
    1 ≤ r →
    retry_go outcomes rand base maxb jit a r =
      ⟨.error (), r, (List.range' a (r - 1)).map (fun (i : Nat) =>
        compute_backoff_seconds (i : Int) base maxb jit (rand i))⟩ := by
  intro r
  induction r with
  | zero => omega
  | succ r ih =>
    intro a _
    unfold retry_go
    rw [hall a]
    by_cases hr : r = 0
    · subst hr
      simp [List.range']
    · rw [if_neg hr]
      have hrec := ih (a + 1) (by omega)
      rw [hrec]
      have hr1 : r - 1 + 1 = r := by omega
      simp only [Nat.add_sub_cancel]
      have hrange : List.range' a r = a :: List.range' (a + 1) (r - 1) := by
        conv_lhs => rw [show r = (r - 1) + 1 by omega]
        rw [List.range'_succ]
      rw [hrange]
      simp

/-- C5: `request_with_retry` retries only network-layer errors — any
returned response (whatever its HTTP status) ends the loop at once — for at
most `max(1, N)` attempts; before retry `i+1` it sleeps the computed backoff
for attempt `i`, which is the base delay doubled per attempt and capped at
the configured maximum, plus a random jitter of at most `jitter_ratio` times
that capped delay; when every attempt fails at the network layer the final
error propagates after `max(1, N)` attempts. -/
theorem request_with_retry_policy (outcomes : Nat → AttemptOutcome) (rand : Nat → ℚ)
    (N : Int) (base maxb jit : ℚ) :
    ((request_with_retry outcomes rand N base maxb jit).attempts_made ≤
      (max 1 N).toNat) ∧
    (∀ s, outcomes 1 = .response s →
      request_with_retry outcomes rand N base maxb jit = ⟨.ok s, 1, []⟩) ∧
    (∀ a r s, outcomes a = .response s →
      retry_go outcomes rand (max 0 base) (max 0 maxb) (max 0 jit) a (r + 1) =
        ⟨.ok s, 1, []⟩) ∧
    ((∀ i, outcomes i = .requestError) →
      request_with_retry outcomes rand N base maxb jit =
        ⟨.error (), (max 1 N).toNat,
          (List.range' 1 ((max 1 N).toNat - 1)).map (fun (i : Nat) =>
            compute_backoff_seconds (i : Int) (max 0 base) (max 0 maxb) (max 0 jit)
              (rand i))⟩) ∧
    (∀ (a : Nat) (b mx j rv : ℚ), 1 ≤ a → 0 < b → 0 < mx → 0 ≤ j →
      0 ≤ rv → rv < 1 →
      min (b * 2 ^ (a - 1)) mx ≤ compute_backoff_seconds a b mx j rv ∧
      compute_backoff_seconds a b mx j rv ≤
        min (b * 2 ^ (a - 1)) mx + j * min (b * 2 ^ (a - 1)) mx) := by
  have hone : 1 ≤ (max 1 N).toNat := by omega
  refine ⟨?_, ?_, ?_, ?_, ?_⟩
  · exact retry_go_attempts_le outcomes rand _ _ _ _ 1
  · intro s hs
    unfold request_with_retry
    obtain ⟨k, hk⟩ : ∃ k, (max 1 N).toNat = k + 1 := ⟨(max 1 N).toNat - 1, by omega⟩
    rw [hk]
    unfold retry_go
    rw [hs]
  · intro a r s hs
    unfold retry_go
    rw [hs]
  · intro hall
    unfold request_with_retry
    exact retry_go_all_network outcomes rand _ _ _ hall _ 1 hone
  · intro a b mx j rv ha hb hmx hj hrv0 hrv1
    have hexp : (max 0 ((a : Int) - 1)).toNat = a - 1 := by omega
    have hd0 : (0 : ℚ) < b * 2 ^ (a - 1) := by positivity
    have hdpos : (0 : ℚ) < min (b * 2 ^ (a - 1)) mx := lt_min hd0 hmx
    simp only [compute_backoff_seconds]
    rw [if_neg (by linarith : ¬b ≤ 0), hexp, if_pos hmx]
    rcases eq_or_lt_of_le hj with hj0 | hjpos
    · rw [if_neg (by rw [← hj0]; exact lt_irrefl 0)]
      constructor
      · rw [max_eq_right hdpos.le]
      · rw [max_eq_right hdpos.le, ← hj0]
        nlinarith [hdpos]
    · rw [if_pos hjpos]
      have hjit0 : 0 ≤ rv * (min (b * 2 ^ (a - 1)) mx * j) := by positivity
      have hjit1 : rv * (min (b * 2 ^ (a - 1)) mx * j) ≤
          j * min (b * 2 ^ (a - 1)) mx := by
        have h1 : rv * (min (b * 2 ^ (a - 1)) mx * j) ≤
            1 * (min (b * 2 ^ (a - 1)) mx * j) := by
          apply mul_le_mul_of_nonneg_right hrv1.le
          positivity
        nlinarith
      constructor
      · rw [max_eq_right (by linarith)]
        linarith
      · rw [max_eq_right (by linarith)]
        linarith

/-- Witness for C5: three attempts, all network errors — the error
propagates after exactly three calls with two positive backoffs. -/
theorem request_with_retry_policy_witness :
    (∀ i : Nat, (fun _ : Nat => AttemptOutcome.requestError) i = .requestError) ∧
    request_with_retry (fun _ => AttemptOutcome.requestError) (fun _ => 0) 3
        (1 / 2) 5 (1 / 10) =
      ⟨.error (), 3,
        (List.range' 1 2).map (fun (i : Nat) =>
          compute_backoff_seconds (i : Int) (max 0 (1 / 2)) (max 0 5) (max 0 (1 / 10))
            ((fun _ : Nat => (0 : ℚ)) i))⟩ :=
  ⟨fun _ => rfl,
   (request_with_retry_policy (fun _ => AttemptOutcome.requestError) (fun _ => 0) 3
      (1 / 2) 5 (1 / 10)).2.2.2.1 (fun _ => rfl)⟩

end Yournote
